import Mathlib

/-!
Verification of the searchneu backend against its specification.

The development shallowly embeds `src/backend/server.js` (the index
lifecycle manager `getSearch`, the `GET /search` request handler, and the
security/cache header middleware chain) and
`src/frontend/components/macros.js` (the `debounceTooltipRebuild`
helper).  The search engine itself (`common/search`, reached through
`search.create` and `index.search`) and the `isNumeric` helper
(`common/macros`) are not part of the visible sources; they are modelled
from the specification, and each such definition says so in its doc
comment.

JavaScript execution is single threaded: an `async` function body runs
atomically up to its first `await`.  `getSearch` contains no `await`
before it assigns the module variable `searchPromise`, so a sequence of
calls (concurrent callers are serialised by the event loop) is modelled
as a fold of a pure step function over an explicit server state.
-/

/-- A document of the search index.  Modelled from the spec: the index and
its documents live in `common/search`, which is absent from the sources.
Per the spec a document carries a stable id and text fields; the searchable
text is collapsed into one string, which is all the claims here need. -/
structure Doc where
  id : Nat
  text : String
deriving DecidableEq, Repr

/-- Tokenization, modelled from the spec: lowercase, split on
non-alphanumeric boundaries, drop tokens shorter than 2 characters. -/
def tokenize (s : String) : List String :=
  (s.toLower.split (fun c => !c.isAlphanum)).filter (fun t => 2 ≤ t.length)

/-- Modelled from the spec: a document matches a query when at least one
query token occurs among the document's tokens (exact-token baseline). -/
def docMatches (q : String) (d : Doc) : Bool :=
  (tokenize q).any (fun t => (tokenize d.text).contains t)

/-- Modelled from the spec: a document's score is the number of query
tokens it contains (a stand-in for the tf·idf sum; the claims proved here
depend only on the length and membership of the ranked list, which any
scoring function yields). -/
def docScore (q : String) (d : Doc) : Nat :=
  ((tokenize q).filter (fun t => (tokenize d.text).contains t)).length

/-- Ranking order, modelled from the spec: higher score first, ties broken
by document id for determinism. -/
def rankLE (q : String) (d1 d2 : Doc) : Bool :=
  docScore q d2 < docScore q d1 ||
    (docScore q d2 == docScore q d1 && d1.id ≤ d2.id)

/-- Insert a document into a list sorted by `le` (insertion step of a
structural insertion sort). -/
def insertRanked (le : Doc → Doc → Bool) (d : Doc) : List Doc → List Doc
  | [] => [d]
  | e :: es => if le d e then d :: e :: es else e :: insertRanked le d es

/-- Insertion sort by `le`; sorting permutes the list, so in particular
it preserves its length and members. -/
def sortRanked (le : Doc → Doc → Bool) (l : List Doc) : List Doc :=
  l.foldr (insertRanked le) []

/-- Modelled from the spec: the full ranked list of a query — the
documents matching at least one query token, sorted by rank. -/
def rankedList (idx : List Doc) (q : String) : List Doc :=
  sortRanked (rankLE q) (idx.filter (docMatches q))

/-- Modelled from the spec: the total number of matches of a query. -/
def totalMatches (idx : List Doc) (q : String) : Nat :=
  (rankedList idx q).length

/-- Modelled from the spec: `index.search(q, minIndex, maxIndex)` returns
the slice `[minIndex, maxIndex)` of the full ranked list; if `maxIndex`
exceeds the available results only the existing results are returned. -/
def searchIdx (idx : List Doc) (q : String) (minIndex maxIndex : Nat) : List Doc :=
  (((rankedList idx q).drop minIndex).take (maxIndex - minIndex))

/-- Modelled from the spec: `search.create` builds the index from the four
parsed payloads (term dump, search-index dump, employee map, employee
search-index dump); the built index holds all their documents. -/
def searchCreate (a b c d : List Doc) : List Doc :=
  a ++ b ++ c ++ d

/-- The outcome held by the module-level `searchPromise`
(src/backend/server.js:73): either it resolved to a built index or it
rejected (one of the four reads or parses failed, so `Promise.all`
rejected). -/
inductive PromiseState where
  | resolvedIdx (idx : List Doc)
  | rejected
deriving DecidableEq, Repr

/-- The four dump files: each either reads and parses to a payload or
fails (missing file, unreadable, or malformed JSON). -/
structure Env where
  termDump : Option (List Doc)
  searchIndexDump : Option (List Doc)
  employeeMap : Option (List Doc)
  employeesSearchIndexDump : Option (List Doc)
deriving DecidableEq, Repr

/-- What `searchPromise` settles to
(src/backend/server.js:98-100): `Promise.all` of the four read-and-parse
promises rejects as soon as any input fails, otherwise it resolves and
`search.create` runs on the four payloads. -/
def buildOutcome (env : Env) : PromiseState :=
  match env.termDump, env.searchIndexDump, env.employeeMap, env.employeesSearchIndexDump with
  | some a, some b, some c, some d => PromiseState.resolvedIdx (searchCreate a b c d)
  | _, _, _, _ => PromiseState.rejected

/-- The mutable server state: the cached `searchPromise`
(src/backend/server.js:73), plus instrumentation counting the
`fs.readFile` invocations and the underlying build executions. -/
structure ServerState where
  searchPromise : Option PromiseState
  reads : Nat
  builds : Nat
deriving DecidableEq, Repr

/-- The state at process start: `searchPromise` is `null`, nothing read. -/
def initState : ServerState := ⟨none, 0, 0⟩

/-- Whether `Promise.all` applied to an array of promises throws
synchronously.  In JavaScript it never does — rejection of the inputs
surfaces asynchronously — so the `catch` block at
src/backend/server.js:102-106, which logs and returns `null`, can never
run.  The constant keeps that branch visible in the embedding. -/
def promiseAllThrowsSync : Bool := false

/-- Embedding of `getSearch` (src/backend/server.js:75-109).  The body has
no `await` before `searchPromise` is assigned, so one call is one atomic
step.  If `searchPromise` is set it is returned; otherwise the four
`fs.readFile` calls are issued, `searchPromise` is set to the
`Promise.all(...).then(search.create)` chain and returned.  The `catch`
path returns `null` without assigning `searchPromise`; it is guarded by
`promiseAllThrowsSync`, which is `false`. -/
def getSearch (env : Env) (s : ServerState) : ServerState × Option PromiseState :=
  match s.searchPromise with
  | some p => (s, some p)
  | none =>
    let s1 : ServerState := { s with reads := s.reads + 4, builds := s.builds + 1 }
    if promiseAllThrowsSync then
      (s1, none)
    else
      let p := buildOutcome env
      ({ s1 with searchPromise := some p }, some p)

/-- A sequence of `n` calls to `getSearch` from process start, returning
the final state and the value each call returned. -/
def runCalls (env : Env) : Nat → ServerState × List (Option PromiseState)
  | 0 => (initState, [])
  | n + 1 =>
    let prev := runCalls env n
    let step := getSearch env prev.1
    (step.1, prev.2 ++ [step.2])

/-- A query-string parameter as Express delivers it in `req.query`: absent,
a string, or a non-string value (array or object produced by the qs
parser). -/
inductive JsParam where
  | missing
  | str (s : String)
  | nonString
deriving DecidableEq, Repr

/-- JavaScript truthiness of a `req.query` value: `undefined` and the
empty string are falsy; any other string and any array or object is
truthy. -/
def truthy : JsParam → Bool
  | JsParam.missing => false
  | JsParam.str s => !(s == "")
  | JsParam.nonString => true

/-- Whether `typeof v === 'string'` holds for a `req.query` value. -/
def isStringParam : JsParam → Bool
  | JsParam.str _ => true
  | _ => false

/-- The string payload of a parameter (only meaningful once
`isStringParam` has been checked, as the handler does). -/
def getStr : JsParam → String
  | JsParam.str s => s
  | _ => ""

/-- Value of a digit list read in base 10. -/
def digitsVal (l : List Char) : Nat :=
  l.foldl (fun acc c => acc * 10 + (c.toNat - 48)) 0

/-- A decimal integer parser: an optional leading minus sign followed by
at least one digit.  Used to model both the numeric check and `parseInt`
on the strings that pass it. -/
def parseNumeric (s : String) : Option Int :=
  match s.data with
  | [] => none
  | c :: rest =>
    if c = '-' then
      if !rest.isEmpty && rest.all Char.isDigit then
        some (-(digitsVal rest : Int))
      else none
    else if (c :: rest).all Char.isDigit then
      some ((digitsVal (c :: rest) : Int))
    else none

/-- Modelled from the spec: `macros.isNumeric` comes from
`common/macros`, which is absent from the sources.  The spec says the
caller layer validates that the indices, arriving as text, are numbers;
we model the check as "the value is a string that parses as a (possibly
signed) decimal integer".  It accepts any such string — in particular
negative ones — and performs no comparison between the two indices. -/
def isNumeric : JsParam → Bool
  | JsParam.str s => (parseNumeric s).isSome
  | _ => false

/-- Embedding of `parseInt` as applied at
src/backend/server.js:129 and 134: by then the value is known numeric, so
the result is the parsed integer. -/
def parseIntJs (s : String) : Int :=
  (parseNumeric s).getD 0

/-- A `GET /search` request: the three query-string parameters. -/
structure SearchReq where
  query : JsParam
  minIndex : JsParam
  maxIndex : JsParam
deriving DecidableEq, Repr

/-- The query-validity test at src/backend/server.js:115:
`!req.query.query || typeof req.query.query !== 'string' ||
req.query.query.length > 500`. -/
def queryBad (p : JsParam) : Bool :=
  !truthy p || !isStringParam p ||
    (match p with
     | JsParam.str s => decide (500 < s.length)
     | _ => false)

/-- Outcome of the handler's parameter validation
(src/backend/server.js:115-135). -/
inductive Validation where
  | rejectQuery
  | rejectIndices
  | proceed (q : String) (minIndex maxIndex : Int)
deriving DecidableEq, Repr

/-- Embedding of the validation prefix of the `GET /search` handler
(src/backend/server.js:115-135): reject a bad query, then reject
non-numeric indices, then compute `minIndex` (default 0) and `maxIndex`
(default 10) with `parseInt` on truthy values. -/
def validate (req : SearchReq) : Validation :=
  if queryBad req.query then Validation.rejectQuery
  else if !isNumeric req.minIndex || !isNumeric req.maxIndex then Validation.rejectIndices
  else
    let minIndex : Int := if truthy req.minIndex then parseIntJs (getStr req.minIndex) else 0
    let maxIndex : Int := if truthy req.maxIndex then parseIntJs (getStr req.maxIndex) else 10
    Validation.proceed (getStr req.query) minIndex maxIndex

/-- The serialization `JSON.stringify(d)` of one document, modelled with
the id and the text payload. -/
def jsonStringifyDoc (d : Doc) : String :=
  "\x7b\"id\":" ++ toString d.id ++ ",\"text\":\"" ++ d.text ++ "\"\x7d"

/-- The serialization `JSON.stringify(results)` at
src/backend/server.js:151. -/
def jsonStringify (l : List Doc) : String :=
  "[" ++ String.intercalate "," (l.map jsonStringifyDoc) ++ "]"

/-- The possible responses of the `GET /search` handler.  The first four
are `res.send` calls in the handler body; `frameworkError` is the Express
default error handler, reached when `await getSearch()` throws (the cached
promise rejected) and `express-async-wrap` forwards the error. -/
inductive Response where
  | needQuery
  | needNumbers
  | unavailable
  | results (q : String) (minIndex maxIndex : Int) (body : String)
  | frameworkError
deriving DecidableEq, Repr

/-- The HTTP status of each response: every `res.send` in the handler
leaves the default status 200; the Express default error handler sends
500. -/
def statusOf : Response → Nat
  | Response.frameworkError => 500
  | _ => 200

/-- The response body: the three fixed texts of the handler's `res.send`
calls, the serialized results, or the framework's error page. -/
def bodyOf : Response → String
  | Response.needQuery => "Need query param."
  | Response.needNumbers => "Max and Min index must be numbers."
  | Response.unavailable => "Could not start backend. No data found."
  | Response.results _ _ _ body => body
  | Response.frameworkError => "Internal Server Error"

/-- Whether the response is one of the handler's textual error branches. -/
def isErrorBody : Response → Bool
  | Response.needQuery => true
  | Response.needNumbers => true
  | Response.unavailable => true
  | _ => false

/-- Whether handling the request invoked `index.search`. -/
def searchInvoked : Response → Bool
  | Response.results _ _ _ _ => true
  | _ => false

/-- Embedding of the `GET /search` handler
(src/backend/server.js:114-155): validate the query, validate the
indices, `await getSearch()`, take the unavailable branch on `null`,
otherwise run `index.search` and send the stringified results.  A
rejected cached promise makes the `await` throw, which
`express-async-wrap` forwards to the framework error handler. -/
def handleSearch (env : Env) (req : SearchReq) (s : ServerState) : ServerState × Response :=
  match validate req with
  | Validation.rejectQuery => (s, Response.needQuery)
  | Validation.rejectIndices => (s, Response.needNumbers)
  | Validation.proceed q mn mx =>
    let r := getSearch env s
    match r.2 with
    | none => (r.1, Response.unavailable)
    | some PromiseState.rejected => (r.1, Response.frameworkError)
    | some (PromiseState.resolvedIdx idx) =>
      (r.1, Response.results q mn mx (jsonStringify (searchIdx idx q mn.toNat mx.toNat)))

/-- The eager call `getSearch()` at src/backend/server.js:112, run at
module load: its returned promise is discarded, so no rejection handler is
ever attached to it. -/
def startup (env : Env) : ServerState × Option PromiseState :=
  getSearch env initState

/-- Whether the startup call leaves an unhandled promise rejection: the
promise returned by the eager `getSearch()` is discarded, so if it settles
rejected nothing ever handles it. -/
def startupUnhandledRejection (env : Env) : Bool :=
  match (startup env).2 with
  | some PromiseState.rejected => true
  | _ => false

/-- An environment in which all four dump files fail to load or parse. -/
def envAllFail : Env := ⟨none, none, none, none⟩

/-- A well-formed request: a short string query and numeric indices. -/
def reqValid : SearchReq :=
  ⟨JsParam.str "math", JsParam.str "0", JsParam.str "10"⟩

/-- The response headers this development tracks: the four security
headers and `Cache-Control`, each `none` until a middleware sets it. -/
structure HeaderState where
  xFrameOptions : Option String
  contentSecurityPolicy : Option String
  xXssProtection : Option String
  xContentTypeOptions : Option String
  cacheControl : Option String
deriving DecidableEq, Repr

/-- Headers before any middleware has run. -/
def noHeaders : HeaderState := ⟨none, none, none, none, none⟩

/-- Where a request lands after routing, with the `/search` handler's
branch recorded (only its unavailable branch touches headers). -/
inductive Target where
  | searchUnavailable
  | searchOther
  | otherRoute
deriving DecidableEq, Repr

/-- An incoming request as the middleware chain sees it: the protocol,
the Cloudflare forwarding header, and where routing will send it. -/
structure HttpReq where
  isHttps : Bool
  forwardedHttps : Bool
  target : Target
deriving DecidableEq, Repr

/-- How the response left the server: redirected by the HTTPS middleware,
or answered by a route. -/
inductive RespKind where
  | redirect
  | routed
deriving DecidableEq, Repr

/-- Embedding of the first middleware (src/backend/server.js:18-38): set
the four security headers on every response, then `Cache-Control` from
the PROD/DEV flag. -/
def securityMiddleware (prod : Bool) (h : HeaderState) : HeaderState :=
  { h with
    xFrameOptions := some "DENY"
    contentSecurityPolicy := some "frame-ancestors 'none'"
    xXssProtection := some "1; mode=block"
    xContentTypeOptions := some "nosniff"
    cacheControl := some (if prod then "public, max-age=86400" else "no-cache") }

/-- Embedding of the HTTP-to-HTTPS middleware
(src/backend/server.js:42-69): pass HTTPS requests, pass requests
Cloudflare already served over HTTPS, pass everything in DEV; otherwise
overwrite `Cache-Control` with `public, max-age=5256000` and redirect.
`macros.DEV` is modelled as the negation of `macros.PROD`. -/
def httpsMiddleware (prod : Bool) (r : HttpReq) (h : HeaderState) : HeaderState × Bool :=
  if r.isHttps then (h, false)
  else if r.forwardedHttps then (h, false)
  else if !prod then (h, false)
  else ({ h with cacheControl := some "public, max-age=5256000" }, true)

/-- Header effect of the routed handler: only the `/search` unavailable
branch sets a header, overwriting `Cache-Control` with
`no-cache, no-store` (src/backend/server.js:143). -/
def routeHeaders (t : Target) (h : HeaderState) : HeaderState :=
  match t with
  | Target.searchUnavailable => { h with cacheControl := some "no-cache, no-store" }
  | _ => h

/-- The whole response pipeline for one request: security/cache headers,
then the HTTPS middleware (which may redirect), then the route. -/
def serverRespond (prod : Bool) (r : HttpReq) : HeaderState × RespKind :=
  let h1 := securityMiddleware prod noHeaders
  let (h2, redirected) := httpsMiddleware prod r h1
  if redirected then (h2, RespKind.redirect)
  else (routeHeaders r.target h2, RespKind.routed)

/-- State of the JavaScript timer queue as used by
`debounceTooltipRebuild` (src/frontend/components/macros.js:10-20):
the pending timers as `(id, fire time)` pairs, the module variable
`tooltipTimer` holding the id of the last scheduled timer, a fresh-id
counter, and the times at which `ReactTooltip.rebuild` has fired. -/
structure TimerState where
  pending : List (Nat × Nat)
  tooltipTimer : Option Nat
  nextId : Nat
  fired : List Nat
deriving DecidableEq, Repr

/-- The timer state at page load: `tooltipTimer` is `null`. -/
def initTimers : TimerState := ⟨[], none, 0, []⟩

/-- Embedding of `clearTimeout`: remove the timer with the stored id from
the pending queue; `clearTimeout(null)` is a no-op. -/
def clearTimeoutJs (s : TimerState) (tid : Option Nat) : TimerState :=
  match tid with
  | none => s
  | some i => { s with pending := s.pending.filter (fun p => !(p.1 == i)) }

/-- Embedding of `setTimeout` at time `now` with delay `delay`: enqueue a
fresh timer and return its id. -/
def setTimeoutJs (s : TimerState) (now delay : Nat) : TimerState × Nat :=
  ({ s with
      pending := s.pending ++ [(s.nextId, now + delay)]
      nextId := s.nextId + 1 }, s.nextId)

/-- Embedding of `Macros.debounceTooltipRebuild`
(src/frontend/components/macros.js:17-20) called at time `now`:
`clearTimeout(tooltipTimer)` then
`tooltipTimer = setTimeout(ReactTooltip.rebuild, 20)`. -/
def debounceTooltipRebuild (s : TimerState) (now : Nat) : TimerState :=
  let s1 := clearTimeoutJs s s.tooltipTimer
  let s2 := setTimeoutJs s1 now 20
  { s2.1 with tooltipTimer := some s2.2 }

/-- Advance the clock to time `now`: every pending timer due by `now`
fires (its fire time is recorded) and leaves the queue. -/
def fireDue (s : TimerState) (now : Nat) : TimerState :=
  { s with
    pending := s.pending.filter (fun p => decide (now < p.2))
    fired := s.fired ++ (s.pending.filter (fun p => decide (p.2 ≤ now))).map (fun p => p.2) }

/-- One call to `debounceTooltipRebuild` at time `t`: the event loop first
runs whatever timers came due, then the call. -/
def stepCall (s : TimerState) (t : Nat) : TimerState :=
  debounceTooltipRebuild (fireDue s t) t

/-- A burst of calls at the given times, starting from page load. -/
def runCallsAt (ts : List Nat) : TimerState :=
  ts.foldl stepCall initTimers

/-- Let time run to infinity after the last call: every still-pending
timer fires. -/
def quiesce (s : TimerState) : TimerState :=
  { s with pending := [], fired := s.fired ++ s.pending.map (fun p => p.2) }

/-- Two consecutive calls of a burst: strictly later, but within the 20ms
debounce window of the previous call. -/
def burstRel (a b : Nat) : Prop := a < b ∧ b < a + 20

/-- Invariant of the timer queue under `debounceTooltipRebuild`: at most
one timer is pending, and any pending timer is the one whose id
`tooltipTimer` holds. -/
def timerInv (s : TimerState) : Prop :=
  s.pending.length ≤ 1 ∧ ∀ p ∈ s.pending, s.tooltipTimer = some p.1

/-- Mid-burst shape of the timer state after a call at time `c`: exactly
one timer is pending, due at `c + 20`, tracked by `tooltipTimer`, and
nothing has fired. -/
def burstState (s : TimerState) (c : Nat) : Prop :=
  ∃ i, s.pending = [(i, c + 20)] ∧ s.tooltipTimer = some i ∧ s.fired = []

/-- A course document of the worked example. -/
def docCourse : Doc := ⟨1, "CS 101 Intro to Programming"⟩

/-- An employee document of the worked example. -/
def docEmployee : Doc := ⟨2, "Jane Doe CS"⟩

/-- An environment in which all four dump files load and parse. -/
def envOk : Env := ⟨some [docCourse], some [], some [docEmployee], some []⟩

/-- The server state after a successful build from `envOk`. -/
def sReady : ServerState :=
  ⟨some (PromiseState.resolvedIdx (searchCreate [docCourse] [] [docEmployee] [])), 4, 1⟩

/-- A request whose indices are both numeric and non-negative but
inverted: `minIndex = 5 > 2 = maxIndex`. -/
def reqInverted : SearchReq :=
  ⟨JsParam.str "cs", JsParam.str "5", JsParam.str "2"⟩

/-- A request whose `maxIndex` parameter is absent. -/
def reqBadIndices : SearchReq :=
  ⟨JsParam.str "cs", JsParam.str "5", JsParam.missing⟩

/-- A request whose `query` parameter is absent. -/
def reqNoQuery : SearchReq :=
  ⟨JsParam.missing, JsParam.str "0", JsParam.str "10"⟩

/-- A plain-HTTP request in production, not forwarded by Cloudflare,
aimed at an ordinary route. -/
def reqProdHttp : HttpReq := ⟨false, false, Target.otherRoute⟩



/-- A cached `searchPromise` is returned unchanged. -/
theorem getSearch_cached (env : Env) (s : ServerState) (p : PromiseState)
    (h : s.searchPromise = some p) : getSearch env s = (s, some p) := by
  unfold getSearch
  rw [h]

/-- `getSearch` never returns `null`: the cached promise is returned, and
on the first call `Promise.all` cannot throw synchronously, so the value
is always the (possibly rejected) build promise. -/
theorem getSearch_some (env : Env) (s : ServerState) :
    (getSearch env s).2 = some (s.searchPromise.getD (buildOutcome env)) := by
  unfold getSearch
  cases s.searchPromise <;> simp [promiseAllThrowsSync]

/-- After at least one call to `getSearch`, the server state is settled:
the build promise is cached, exactly four reads and one build happened. -/
theorem runCalls_state (env : Env) (n : Nat) (h : 1 ≤ n) :
    (runCalls env n).1 = ⟨some (buildOutcome env), 4, 1⟩ := by
  induction n with
  | zero => exact absurd h (by omega)
  | succ n ih =>
    rcases Nat.eq_zero_or_pos n with h0 | h1
    · subst h0
      simp [runCalls, getSearch, initState, promiseAllThrowsSync]
    · have hs := ih h1
      simp only [runCalls]
      rw [hs]
      simp [getSearch]

/-- Every call in a sequence of `getSearch` calls returns the one build
promise. -/
theorem runCalls_results (env : Env) (n : Nat) :
    ∀ r ∈ (runCalls env n).2, r = some (buildOutcome env) := by
  induction n with
  | zero => simp [runCalls]
  | succ n ih =>
    intro r hr
    simp only [runCalls, List.mem_append, List.mem_singleton] at hr
    rcases hr with hr | hr
    · exact ih r hr
    · subst hr
      rcases Nat.eq_zero_or_pos n with h0 | h1
      · subst h0
        simp [runCalls, getSearch, initState, promiseAllThrowsSync]
      · rw [runCalls_state env n h1]
        simp [getSearch]

/-- C1: across any sequence of calls to `getSearch`, at most one
underlying build (the four reads plus `search.create`) is executed — for
`n ≥ 1` calls the build counter is exactly 1 — and every call returns the
same cached build promise, so all callers observe the same index or the
same failure. -/
theorem getSearch_at_most_one_build (env : Env) (n : Nat) (h : 1 ≤ n) :
    (runCalls env n).1.builds = 1 ∧
      ∀ r ∈ (runCalls env n).2, r = some (buildOutcome env) := by
  constructor
  · rw [runCalls_state env n h]
  · exact runCalls_results env n

/-- Witness for C1: three consecutive callers after a successful load all
receive the one build. -/
theorem getSearch_at_most_one_build_witness :
    1 ≤ 3 ∧
      ((runCalls envOk 3).1.builds = 1 ∧
        ∀ r ∈ (runCalls envOk 3).2, r = some (buildOutcome envOk)) :=
  ⟨by decide, getSearch_at_most_one_build envOk 3 (by decide)⟩

/-- C7: once a build has been initiated (the promise is cached), handling
a `/search` request performs no filesystem reads, and neither does a
further `getSearch` call; the four `fs.readFile` calls happen only in the
first `getSearch` invocation. -/
theorem no_reads_after_first_build (env : Env) (req : SearchReq) (s : ServerState)
    (p : PromiseState) (h : s.searchPromise = some p) :
    (handleSearch env req s).1.reads = s.reads ∧
      (getSearch env s).1.reads = s.reads ∧
      (getSearch env initState).1.reads = 4 := by
  have hc : getSearch env s = (s, some p) := getSearch_cached env s p h
  refine ⟨?_, by rw [hc], by simp [getSearch, initState, promiseAllThrowsSync]⟩
  unfold handleSearch
  cases hv : validate req with
  | rejectQuery => rfl
  | rejectIndices => rfl
  | proceed q mn mx =>
    cases p <;> simp [hc]

/-- Witness for C7: in the state left by the startup call, a valid query
and a further `getSearch` call leave the read counter unchanged. -/
theorem no_reads_after_first_build_witness :
    (startup envOk).1.searchPromise = some (buildOutcome envOk) ∧
      ((handleSearch envOk reqValid (startup envOk).1).1.reads = (startup envOk).1.reads ∧
        (getSearch envOk (startup envOk).1).1.reads = (startup envOk).1.reads ∧
        (getSearch envOk initState).1.reads = 4) :=
  ⟨rfl, no_reads_after_first_build envOk reqValid (startup envOk).1 (buildOutcome envOk) rfl⟩

/-- C2 (refuting): the `'Could not start backend. No data found.'` branch
of the `/search` handler is unreachable — `getSearch` can only return
`null` from the `catch` around `Promise.all`, which never throws
synchronously — and when all four dump files fail to load, a valid
request is answered by the framework error handler (the rejected cached
promise makes `await getSearch()` throw inside `express-async-wrap`), not
by the explicit textual unavailable response. -/
theorem unavailable_branch_unreachable :
    (∀ env req s, ((handleSearch env req s).2 == Response.unavailable) = false) ∧
      (handleSearch envAllFail reqValid initState).2 = Response.frameworkError ∧
      (Response.frameworkError == Response.unavailable) = false := by
  refine ⟨?_, by decide, by decide⟩
  intro env req s
  rw [beq_eq_false_iff_ne]
  unfold handleSearch
  cases hv : validate req with
  | rejectQuery => simp
  | rejectIndices => simp
  | proceed q mn mx =>
    have h := getSearch_some env s
    simp only [h]
    cases s.searchPromise.getD (buildOutcome env) <;> simp

/-- C4 (refuting): when the dump files are missing at startup, the eager
`getSearch()` call at src/backend/server.js:112 discards its rejected
promise, leaving an unhandled promise rejection, and a subsequent valid
`/search` request is answered by the framework error handler rather than
one of the handler's own textual responses. -/
theorem startup_unhandled_rejection :
    startupUnhandledRejection envAllFail = true ∧
      (handleSearch envAllFail reqValid (startup envAllFail).1).2 = Response.frameworkError ∧
      isErrorBody Response.frameworkError = false := by decide

/-- C3 counterexample: the request `query=cs&minIndex=5&maxIndex=2` has
non-negative numeric indices with `minIndex > maxIndex`, passes the
handler's validation, and `index.search` is invoked on it. -/
theorem minmax_order_unchecked :
    validate reqInverted = Validation.proceed "cs" 5 2 ∧
      (2 : Int) < 5 ∧ (0 : Int) ≤ 2 ∧
      searchInvoked (handleSearch envOk reqInverted initState).2 = true := by decide

/-- C3 amended: the handler rejects a request before invoking
`index.search` exactly when `minIndex` or `maxIndex` fails the numeric
check (or the query is invalid); it enforces neither non-negativity nor
`minIndex ≤ maxIndex`, so requests violating only those reach
`index.search`. -/
theorem nonNumeric_indices_rejected (env : Env) (req : SearchReq) (s : ServerState)
    (h : (isNumeric req.minIndex && isNumeric req.maxIndex) = false) :
    searchInvoked (handleSearch env req s).2 = false := by
  unfold handleSearch validate
  cases hmn : isNumeric req.minIndex <;> cases hmx : isNumeric req.maxIndex <;>
    simp_all [searchInvoked]
  · cases hq : queryBad req.query <;> simp [searchInvoked]
  · cases hq : queryBad req.query <;> simp [searchInvoked]
  · cases hq : queryBad req.query <;> simp [searchInvoked]

/-- Witness for C3's amended theorem: a request with a missing `maxIndex`
never reaches `index.search`. -/
theorem nonNumeric_indices_rejected_witness :
    (isNumeric reqBadIndices.minIndex && isNumeric reqBadIndices.maxIndex) = false ∧
      searchInvoked (handleSearch envOk reqBadIndices initState).2 = false :=
  ⟨by decide, nonNumeric_indices_rejected envOk reqBadIndices initState (by decide)⟩

/-- C5: for every query and window `[a, b)` with `a ≤ b`, the search
returns `min (b - a) (totalMatches - a)` results when `a < totalMatches`
and none when `a ≥ totalMatches`; a `maxIndex` beyond the available
results just truncates, with no error. -/
theorem search_window_length (idx : List Doc) (q : String) (a b : Nat) (h : a ≤ b) :
    (searchIdx idx q a b).length =
      if a < totalMatches idx q then min (b - a) (totalMatches idx q - a) else 0 := by
  unfold searchIdx totalMatches
  rw [List.length_take, List.length_drop]
  split
  · rfl
  · have h0 : (rankedList idx q).length - a = 0 := by omega
    rw [h0, Nat.min_zero]

/-- Witness for C5: the worked two-document example with window
`[0, 10)`. -/
theorem search_window_length_witness :
    (0 : Nat) ≤ 10 ∧
      (searchIdx [docCourse, docEmployee] "programming" 0 10).length =
        (if 0 < totalMatches [docCourse, docEmployee] "programming" then
          min (10 - 0) (totalMatches [docCourse, docEmployee] "programming" - 0)
        else 0) :=
  ⟨by decide, search_window_length [docCourse, docEmployee] "programming" 0 10 (by decide)⟩

/-- C6: a request whose query fails the presence/type/length test is
answered with the fixed textual error and never reaches the engine, and a
valid request served by an available index is answered with the
`JSON.stringify` of the result sequence. -/
theorem query_validation_and_serialization (env : Env) (req : SearchReq) (s : ServerState) :
    (queryBad req.query = true →
      (handleSearch env req s).2 = Response.needQuery ∧
        searchInvoked (handleSearch env req s).2 = false ∧
        isErrorBody (handleSearch env req s).2 = true) ∧
    (∀ q mn mx idx, validate req = Validation.proceed q mn mx →
      s.searchPromise = some (PromiseState.resolvedIdx idx) →
      (handleSearch env req s).2 =
        Response.results q mn mx (jsonStringify (searchIdx idx q mn.toNat mx.toNat))) := by
  constructor
  · intro h
    unfold handleSearch validate
    simp [h, searchInvoked, isErrorBody]
  · intro q mn mx idx hv hs
    unfold handleSearch
    rw [hv, getSearch_cached env s (PromiseState.resolvedIdx idx) hs]

/-- Witness for C6: a missing query is rejected with the fixed text, and
a valid query against the built example index is answered with the
serialized results. -/
theorem query_validation_and_serialization_witness :
    ((handleSearch envOk reqNoQuery initState).2 = Response.needQuery ∧
        searchInvoked (handleSearch envOk reqNoQuery initState).2 = false ∧
        isErrorBody (handleSearch envOk reqNoQuery initState).2 = true) ∧
      (handleSearch envOk reqValid sReady).2 =
        Response.results "math" 0 10
          (jsonStringify (searchIdx (searchCreate [docCourse] [] [docEmployee] [])
            "math" (0 : Int).toNat (10 : Int).toNat)) :=
  ⟨(query_validation_and_serialization envOk reqNoQuery initState).1 (by decide),
    (query_validation_and_serialization envOk reqValid sReady).2 "math" 0 10
      (searchCreate [docCourse] [] [docEmployee] []) (by decide) rfl⟩

/-- C8: every textual error branch of the `/search` handler — bad query,
non-numeric indices, engine unavailable — is sent with the default HTTP
status 200 and one of the three fixed plain-text bodies, the same status
a successful search response carries, so status codes cannot distinguish
failure from success. -/
theorem error_responses_status_200 (r r2 : Response)
    (h : isErrorBody r = true) (h2 : searchInvoked r2 = true) :
    statusOf r = 200 ∧ statusOf r2 = 200 ∧
      (bodyOf r = "Need query param." ∨
        bodyOf r = "Max and Min index must be numbers." ∨
        bodyOf r = "Could not start backend. No data found.") := by
  refine ⟨?_, ?_, ?_⟩
  · cases r <;> simp_all [statusOf, isErrorBody]
  · cases r2 <;> simp_all [statusOf, searchInvoked]
  · cases r <;> simp_all [bodyOf, isErrorBody]

/-- Witness for C8: the bad-query response and a results response both
carry status 200. -/
theorem error_responses_status_200_witness :
    isErrorBody Response.needQuery = true ∧
      searchInvoked (Response.results "cs" 0 10 "[]") = true ∧
      (statusOf Response.needQuery = 200 ∧
        statusOf (Response.results "cs" 0 10 "[]") = 200 ∧
        (bodyOf Response.needQuery = "Need query param." ∨
          bodyOf Response.needQuery = "Max and Min index must be numbers." ∨
          bodyOf Response.needQuery = "Could not start backend. No data found.")) :=
  ⟨by decide, by decide,
    error_responses_status_200 Response.needQuery (Response.results "cs" 0 10 "[]")
      (by decide) (by decide)⟩

/-- C9 counterexample: in PROD, a plain-HTTP request that Cloudflare did
not already serve over HTTPS is redirected with `Cache-Control` set to
`public, max-age=5256000` by the HTTPS middleware — a value the claim
does not allow outside the `/search` unavailable branch, on a request
that is not on that branch. -/
theorem https_redirect_cache_control :
    (serverRespond true reqProdHttp).1.cacheControl = some "public, max-age=5256000" ∧
      (reqProdHttp.target == Target.searchUnavailable) = false ∧
      ("public, max-age=5256000" == "public, max-age=86400") = false ∧
      ("public, max-age=5256000" == "no-cache, no-store") = false := by
  decide

/-- C9 amended: every response carries the four security headers with the
stated values, and `Cache-Control` is determined by the PROD/DEV flag
(`public, max-age=86400` in PROD, `no-cache` otherwise) except on the
`/search` unavailable branch (`no-cache, no-store`) and on the
HTTP-to-HTTPS redirect in PROD (`public, max-age=5256000`). -/
theorem security_headers_on_every_response (prod : Bool) (r : HttpReq) :
    (serverRespond prod r).1.xFrameOptions = some "DENY" ∧
      (serverRespond prod r).1.contentSecurityPolicy = some "frame-ancestors 'none'" ∧
      (serverRespond prod r).1.xXssProtection = some "1; mode=block" ∧
      (serverRespond prod r).1.xContentTypeOptions = some "nosniff" ∧
      (serverRespond prod r).1.cacheControl = some
        (if (serverRespond prod r).2 = RespKind.redirect then "public, max-age=5256000"
        else if r.target = Target.searchUnavailable then "no-cache, no-store"
        else if prod then "public, max-age=86400" else "no-cache") := by
  rcases r with ⟨hs, fw, t⟩
  cases prod <;> cases hs <;> cases fw <;> cases t <;> decide

/-- Under the timer invariant, `clearTimeout(tooltipTimer)` empties the
pending queue: the only pending timer, if any, is the tracked one. -/
theorem clear_pending_nil (s : TimerState) (h : timerInv s) :
    (clearTimeoutJs s s.tooltipTimer).pending = [] := by
  rcases h with ⟨hlen, hmem⟩
  cases ht : s.tooltipTimer with
  | none =>
    have hp : s.pending = [] := by
      cases hp : s.pending with
      | nil => rfl
      | cons a l =>
        have := hmem a (by rw [hp]; exact List.mem_cons_self a l)
        rw [ht] at this
        cases this
    simp [clearTimeoutJs, hp]
  | some i =>
    simp only [clearTimeoutJs]
    rw [List.filter_eq_nil_iff]
    intro a ha
    have := hmem a ha
    rw [ht] at this
    have hai : a.1 = i := by
      injection this with h1
      omega
    simp [hai]

/-- Under the timer invariant, one `debounceTooltipRebuild` call at time
`t` leaves exactly the freshly scheduled timer pending, due at `t + 20`,
with `tooltipTimer` tracking it and nothing newly fired. -/
theorem debounce_state (s : TimerState) (t : Nat) (h : timerInv s) :
    debounceTooltipRebuild s t =
      ⟨[(s.nextId, t + 20)], some s.nextId, s.nextId + 1, s.fired⟩ := by
  have hc := clear_pending_nil s h
  rcases s with ⟨pend, tt, nid, fr⟩
  cases tt with
  | none =>
    simp only [clearTimeoutJs] at hc
    subst hc
    rfl
  | some i =>
    simp only [clearTimeoutJs] at hc
    simp [debounceTooltipRebuild, clearTimeoutJs, setTimeoutJs, hc]

/-- The timer invariant holds at page load. -/
theorem timerInv_init : timerInv initTimers := by
  constructor <;> simp [initTimers]

/-- Firing due timers preserves the timer invariant. -/
theorem fireDue_inv (s : TimerState) (t : Nat) (h : timerInv s) :
    timerInv (fireDue s t) := by
  rcases h with ⟨h1, h2⟩
  constructor
  · exact le_trans (List.length_filter_le _ _) h1
  · intro p hp
    have hp2 : p ∈ s.pending := List.mem_of_mem_filter hp
    exact h2 p hp2

/-- One call to `debounceTooltipRebuild` (with its preceding timer
firings) preserves the timer invariant: at most one rebuild is pending at
any time. -/
theorem stepCall_inv (s : TimerState) (t : Nat) (h : timerInv s) :
    timerInv (stepCall s t) := by
  have h1 := fireDue_inv s t h
  have hd := debounce_state (fireDue s t) t h1
  unfold stepCall
  rw [hd]
  constructor
  · simp
  · intro p hp
    simp only [List.mem_singleton] at hp
    simp [hp]

/-- The timer invariant holds along any fold of calls. -/
theorem foldl_stepCall_inv (ts : List Nat) (s : TimerState) (h : timerInv s) :
    timerInv (ts.foldl stepCall s) := by
  induction ts generalizing s with
  | nil => exact h
  | cons a l ih => exact ih (stepCall s a) (stepCall_inv s a h)

/-- The timer invariant holds after any burst of calls from page load. -/
theorem runCallsAt_inv (ts : List Nat) : timerInv (runCallsAt ts) :=
  foldl_stepCall_inv ts initTimers timerInv_init

/-- A further call within the 20ms window cancels the pending rebuild
before it fires and schedules a fresh one: the mid-burst state shape is
preserved with the new deadline. -/
theorem stepCall_burst (s : TimerState) (c t : Nat) (h : burstState s c)
    (hct : c < t) (ht : t < c + 20) : burstState (stepCall s t) t := by
  rcases h with ⟨i, hp, htt, hf⟩
  rcases s with ⟨pend, tt, nid, fr⟩
  dsimp only at hp htt hf
  subst hp htt hf
  have h2 : ¬ (c + 20 ≤ t) := by omega
  refine ⟨nid, ?_, ?_, ?_⟩ <;>
    simp [stepCall, fireDue, debounceTooltipRebuild, clearTimeoutJs, setTimeoutJs, ht, h2]

/-- Along a burst (each call within 20ms of the previous), the mid-burst
state shape propagates to the last call. -/
theorem foldl_burst (ts : List Nat) : ∀ (s : TimerState) (c : Nat), burstState s c →
    List.Chain' burstRel (c :: ts) →
    burstState (ts.foldl stepCall s) (ts.getLastD c) := by
  induction ts with
  | nil =>
    intro s c h _
    simpa using h
  | cons t l ih =>
    intro s c h hch
    rw [List.chain'_cons] at hch
    rcases hch with ⟨⟨hct, ht⟩, hch⟩
    have h1 := stepCall_burst s c t h hct ht
    rw [List.foldl_cons, List.getLastD_cons]
    exact ih (stepCall s t) t h1 hch

/-- The first call of a burst establishes the mid-burst state shape. -/
theorem stepCall_init (t : Nat) : burstState (stepCall initTimers t) t :=
  ⟨0, rfl, rfl, rfl⟩

/-- C10: along any burst of `debounceTooltipRebuild` calls (each call
strictly later than, and within 20ms of, the previous one) at most one
rebuild timer is pending at every point, and once the burst ends
`ReactTooltip.rebuild` fires exactly once, 20ms after the last call. -/
theorem debounce_single_pending_single_fire (t : Nat) (ts : List Nat)
    (h : List.Chain' burstRel (t :: ts)) :
    (∀ n, (runCallsAt ((t :: ts).take n)).pending.length ≤ 1) ∧
      (quiesce (runCallsAt (t :: ts))).fired = [ts.getLastD t + 20] := by
  constructor
  · intro n
    exact (runCallsAt_inv _).1
  · have hb : burstState (runCallsAt (t :: ts)) (ts.getLastD t) := by
      unfold runCallsAt
      rw [List.foldl_cons]
      exact foldl_burst ts (stepCall initTimers t) t (stepCall_init t) h
    rcases hb with ⟨i, hp, htt, hf⟩
    simp [quiesce, hp, hf]

/-- Witness for C10: the burst of calls at 0ms, 5ms and 15ms keeps at
most one timer pending and yields a single rebuild at 35ms. -/
theorem debounce_single_pending_single_fire_witness :
    List.Chain' burstRel [0, 5, 15] ∧
      ((∀ n, (runCallsAt (([0, 5, 15] : List Nat).take n)).pending.length ≤ 1) ∧
        (quiesce (runCallsAt [0, 5, 15])).fired = [List.getLastD [5, 15] 0 + 20]) :=
  ⟨by simp [List.chain'_cons, burstRel],
    debounce_single_pending_single_fire 0 [5, 15]
      (by simp [List.chain'_cons, burstRel])⟩
